import Mathlib

/-!
Verification of the capture / recognition logic of `src/App.jsx`
(single-file React OCR camera app).

The embedding translates the component's state hooks (lines 17-24), the
capture routine `capturePhoto` (lines 68-80), the OCR routine `runOcr`
(lines 83-97), the manual trigger `onCaptureClick` (lines 100-103), the
automatic sampling loop `check` (lines 107-157) and the threshold-slider
handler (line 217) into pure Lean functions over an explicit state record.

Modelling conventions:
  * JavaScript numbers are embedded as rationals (exact arithmetic).
  * The Tesseract worker is external: it is modelled as a function from
    the submitted data URL to an outcome (success with text/confidence,
    or a recognition error).  `worker === null` before initialization is
    the `workerReady = false` state.
  * `alert(...)` calls are modelled by appending a notice to the state.
  * Asynchrony: the scheduling is the single-threaded cooperative one of
    the browser event loop.  Two views are given.  The event-step model
    `step` describes the body of each operation as evaluated with the
    current render's values, splitting a recognition into its start (up
    to the `await worker.recognize`) and its completion; it is the right
    level for the per-operation claims (capture ordering, what the
    trigger decision reads, the text-clearing invariant).  The `Runtime`
    model then embeds the effect system of lines 107-157 faithfully:
    the dependency array `[autoCapture, processing, worker]` remounts
    the effect on every processing change, `cancelAnimationFrame` can
    only cancel a not-yet-fired frame, a suspended `check` invocation
    survives its cleanup and reschedules itself into an uncancellable
    orphan chain, and `check` reads `processing`/`worker` from the
    closure of the render that mounted it, never `autoCapture`.  The
    scheduling-sensitive claims are settled on `Runtime`.
  * Camera-stream fields (`stream`, `facingMode`) are omitted from the
    state record: no operation modelled here reads them.
-/

namespace OcrProto

/-- One RGBA pixel as read by `getImageData` (lines 129-134): the red,
green and blue channel values (the alpha byte at offset `i+3` is skipped
by the source loop).  Channels are embedded as rationals. -/
structure Pixel where
  r : ℚ
  g : ℚ
  b : ℚ
deriving DecidableEq

/-- Line 135: the luma (grayscale) value `0.299*r + 0.587*g + 0.114*b`. -/
def luma (p : Pixel) : ℚ :=
  0.299 * p.r + 0.587 * p.g + 0.114 * p.b

/-- Lines 132-138: the one-pass accumulation `sum += gray; sumSq += gray*gray`
over the region's pixels, starting from `(0, 0)`. -/
def lumaSums (ps : List Pixel) : ℚ × ℚ :=
  ps.foldl (fun acc p => (acc.1 + luma p, acc.2 + luma p * luma p)) (0, 0)

/-- Lines 139-140: `mean = sum / len; variance = sumSq / len - mean*mean`,
where `len = boxW * boxH` equals the number of pixels in the region. -/
def varianceLuma (ps : List Pixel) : ℚ :=
  let s := lumaSums ps
  let len : ℚ := ps.length
  let mean := s.1 / len
  s.2 / len - mean * mean

/-- Line 143: the fixed trigger threshold, `const varianceThreshold = 500`. -/
def varianceThreshold : ℚ := 500

/-- The trigger decision of line 144, `variance > varianceThreshold && !processing`,
with the threshold literal of line 143 abstracted as a parameter.  The
source instantiates the threshold at the fixed constant `varianceThreshold`. -/
def shouldTrigger (variance threshold : ℚ) (processing : Bool) : Bool :=
  decide (threshold < variance) && !processing

/-- Line 144 exactly as in the source: the decision with the fixed
threshold of line 143. -/
def triggerDecision (variance : ℚ) (processing : Bool) : Bool :=
  shouldTrigger variance varianceThreshold processing

/-- A video frame available for capture: its dimensions (lines 116-117),
the pixels of the center sampling region that `getImageData` would return
(line 129), and the JPEG data URL that `canvas.toDataURL` would encode it
to (line 77). -/
structure Frame where
  width : ℕ
  height : ℕ
  roi : List Pixel
  dataUrl : String
deriving DecidableEq

/-- The inputs one sampling tick of `check` reads from the video element:
`ready` models `videoRef.current && videoRef.current.readyState >= 2`
(line 111), and `frame` the current frame. -/
structure TickInput where
  ready : Bool
  frame : Frame
deriving DecidableEq

/-- The user-visible `alert` notices the component can raise. -/
inductive Notice where
  /-- Line 84: OCR engine still initializing. -/
  | engineNotReady
  /-- Line 93: the recognition call failed. -/
  | recognitionError
  /-- Line 41: camera permission failure (not exercised by the claims). -/
  | cameraPermission
deriving DecidableEq

/-- The component state hooks of lines 18-24 that the modelled operations
read or write: `ocrText`, `processing`, `autoCapture`, `worker` (as the
boolean `workerReady`), `lastCaptureDataUrl` and `autoConfidenceThreshold`,
plus the list of notices raised so far (newest first). -/
structure AppState where
  ocrText : String
  processing : Bool
  autoCapture : Bool
  workerReady : Bool
  lastCaptureDataUrl : Option String
  autoConfidenceThreshold : ℚ
  notices : List Notice
deriving DecidableEq

/-- The initial hook values of lines 18-24. -/
def initialState : AppState :=
  { ocrText := ""
    processing := false
    autoCapture := false
    workerReady := false
    lastCaptureDataUrl := none
    autoConfidenceThreshold := 0.6
    notices := [] }

/-- The result of a successful `worker.recognize` call (line 88):
`data.text` and `data.confidence`. -/
structure OcrResult where
  text : String
  confidence : ℚ
deriving DecidableEq

/-- Outcome of the external recognition call: resolves with a result, or
rejects (the `catch` of line 91). -/
inductive OcrOutcome where
  | ok (res : OcrResult)
  | err
deriving DecidableEq

/-- The external engine, as a black box mapping the submitted data URL to
an outcome. -/
abbrev Engine := String → OcrOutcome

/-- Externally observable effects of one operation, in order. -/
inductive Action where
  /-- A still was captured and stored (lines 76-78). -/
  | captured (dataUrl : String)
  /-- `worker.recognize` was invoked (line 88). -/
  | recognizeCalled (dataUrl : String)
deriving DecidableEq

/-- Lines 68-80, `capturePhoto`: snapshot the frame, store its encoding in
`lastCaptureDataUrl`, and return the data URL.  The model assumes the
video element exists (the claims quantify over states with a live feed). -/
def capturePhoto (frame : Frame) (s : AppState) : AppState × String :=
  ({ s with lastCaptureDataUrl := some frame.dataUrl }, frame.dataUrl)

/-- Lines 83-86 of `runOcr`, up to the awaited recognition call: if the
worker is not ready, alert and drop the request (no state change beyond
the notice); otherwise set `processing := true`, clear `ocrText`, and
issue the recognition call. -/
def runOcrStart (dataUrl : String) (s : AppState) : AppState × List Action :=
  if s.workerReady then
    ({ s with processing := true, ocrText := "" }, [Action.recognizeCalled dataUrl])
  else
    ({ s with notices := Notice.engineNotReady :: s.notices }, [])

/-- Lines 88-96 of `runOcr`, after the awaited call settles: on success
store the text (the confidence is only logged, line 90) and, via the
`finally` of line 95, reset `processing`; on failure alert and reset
`processing`, leaving `ocrText` as it is. -/
def runOcrFinish (outcome : OcrOutcome) (s : AppState) : AppState :=
  match outcome with
  | OcrOutcome.ok res => { s with ocrText := res.text, processing := false }
  | OcrOutcome.err =>
      { s with notices := Notice.recognitionError :: s.notices, processing := false }

/-- Lines 83-97, `runOcr`, run to completion (start phase, then the
settled recognition outcome supplied by the engine). -/
def runOcr (engine : Engine) (dataUrl : String) (s : AppState) : AppState × List Action :=
  let st := runOcrStart dataUrl s
  if s.workerReady then (runOcrFinish (engine dataUrl) st.1, st.2) else st

/-- Lines 100-103, `onCaptureClick`: capture first, then run OCR on the
captured data URL. -/
def onCaptureClick (engine : Engine) (frame : Frame) (s : AppState) : AppState × List Action :=
  let c := capturePhoto frame s
  let r := runOcr engine c.2 c.1
  (r.1, Action.captured c.2 :: r.2)

/-- Line 217, the threshold slider handler:
`onChange={e => setAutoConfidenceThreshold(e.target.value/1000)}` where
the slider value ranges over 100..2000. -/
def onThresholdSlider (value : ℚ) (s : AppState) : AppState :=
  { s with autoConfidenceThreshold := value / 1000 }

/-- The guard of one `check` tick body (lines 111-144): the feed is ready
(line 111), the dimensions are nonzero (line 118), and the variance of
the sampled region passes the line-144 decision. -/
def checkGuard (inp : TickInput) (processing : Bool) : Bool :=
  inp.ready && (inp.frame.width != 0) && (inp.frame.height != 0) &&
    triggerDecision (varianceLuma inp.frame.roi) processing

/-- The events the component reacts to, for the interleaved step model. -/
inductive Event where
  /-- Line 53: worker initialization completes, `setWorker w`. -/
  | workerInit
  /-- One sampling tick of the `check` loop (lines 110-153). -/
  | tick (inp : TickInput)
  /-- Line 207: the manual capture button. -/
  | manualClick (frame : Frame)
  /-- The awaited `worker.recognize` call of an in-flight recognition
  settles with the given outcome (lines 88-96). -/
  | ocrDone (outcome : OcrOutcome)
  /-- Line 208: the auto-capture toggle, setting `autoCapture`. -/
  | setAuto (enabled : Bool)
  /-- Line 226: the clear-text button, `setOcrText('')`. -/
  | clearText
deriving DecidableEq

/-- One step of the component: the state after the event together with
the externally observable actions it performs.  The `tick` case is the
body of one `check` invocation (lines 110-153) as evaluated by a chain
of the currently mounted effect, whose closure values coincide with the
current state — the per-render semantics; the staleness and orphaning
that the source's effect system introduces across remounts are modelled
separately by `Runtime` below.  A triggering tick performs the capture
and the start of the OCR (lines 146-147), whose completion is a later
`ocrDone` event.  An `ocrDone` event is meaningful only while a
recognition is in flight (`processing = true`): it is the resolution of
the call issued by `runOcrStart`. -/
def step (s : AppState) : Event → AppState × List Action
  | Event.workerInit => ({ s with workerReady := true }, [])
  | Event.setAuto b => ({ s with autoCapture := b }, [])
  | Event.clearText => ({ s with ocrText := "" }, [])
  | Event.manualClick frame =>
      let c := capturePhoto frame s
      let r := runOcrStart c.2 c.1
      (r.1, Action.captured c.2 :: r.2)
  | Event.ocrDone outcome =>
      if s.processing then (runOcrFinish outcome s, []) else (s, [])
  | Event.tick inp =>
      if s.autoCapture && checkGuard inp s.processing then
        let c := capturePhoto inp.frame s
        let r := runOcrStart c.2 c.1
        (r.1, Action.captured c.2 :: r.2)
      else (s, [])

/-- Run a sequence of events from a state. -/
def runEvents (s : AppState) : List Event → AppState
  | [] => s
  | e :: es => runEvents (step s e).1 es

/-! The faithful scheduling model.

The event model `step` above gives every tick the current render's
values.  The source does not: the `check` loop lives inside an effect
whose dependency array is `[autoCapture, processing, worker]` (line 157),
so every change of `processing` (or of the worker, or of the toggle)
tears the effect down and re-runs it.  The cleanup of line 155 calls
`cancelAnimationFrame(rafId)`, which can only cancel a frame that has
not fired yet; a `check` invocation that is suspended at one of its
awaits (the recognition of line 88 or the 1500 ms timer of line 150) has
already consumed its frame, survives the cleanup, and unconditionally
reschedules itself at line 152 — into a chain that nothing can cancel
any more (an orphan).  Moreover `check` reads `processing` and `worker`
from its effect's closure, i.e. from the render that mounted it, and
never reads `autoCapture` at all.  The `Runtime` model below embeds
exactly this: render generations, per-chain closures, and the remount
discipline of the dependency array. -/

/-- The state values an effect instance's render closes over and that
`check` reads: the `processing` flag (line 144) and the `worker` handle
(line 84).  `check` never reads `autoCapture` (only the effect body at
line 108 does, at mount time). -/
structure Closure where
  processing : Bool
  workerReady : Bool
deriving DecidableEq

/-- Where a sampling chain stands: a pending animation frame (line 152 or
line 154), a triggered invocation awaiting the recognition call of line
88, or one awaiting the 1500 ms cooldown timer of line 150. -/
inductive ChainState where
  | scheduled
  | awaitingOcr (dataUrl : String)
  | awaitingCooldown
deriving DecidableEq

/-- One sampling chain: the sequential thread of `check` invocations
started by one effect instance (line 154) and kept alive by the
self-reschedule of line 152.  `gen` is the render generation of the
owning effect instance, `closure` the state values that render captured,
`since` the time it entered its current phase. -/
structure Chain where
  gen : ℕ
  closure : Closure
  st : ChainState
  since : ℕ
deriving DecidableEq

/-- The browser-side runtime: the wall clock, the current React state,
the current (live) render generation, and all alive sampling chains.  A
chain whose `gen` is below the live generation is orphaned: its owning
effect instance was cleaned up while the chain was suspended at an
await, so line 155's `cancelAnimationFrame` missed it. -/
structure Runtime where
  now : ℕ
  app : AppState
  gen : ℕ
  chains : List Chain
deriving DecidableEq

/-- Effect teardown and re-run (dependency array `[autoCapture,
processing, worker]`, line 157): the cleanup of line 155 cancels the live
chain's pending animation frame — which removes a chain only if it is
still in its `scheduled` phase; a suspended invocation survives — then
the effect body re-runs in the next render generation and, when
auto-capture is on (line 108), mounts a fresh chain whose closure
captures the new render's state (line 154). -/
def remount (rt : Runtime) : Runtime :=
  let kept := rt.chains.filter
    (fun c => !(c.gen == rt.gen && c.st == ChainState.scheduled))
  let g := rt.gen + 1
  { rt with
    gen := g
    chains :=
      if rt.app.autoCapture then
        kept ++ [{ gen := g
                   closure := { processing := rt.app.processing,
                                workerReady := rt.app.workerReady }
                   st := ChainState.scheduled
                   since := rt.now }]
      else kept }

/-- `setProcessing b`: updates the state and, when the value actually
changes, re-renders and remounts the effect (processing is in the line
157 dependency array); writing the current value again causes no
re-render. -/
def setProcessingR (b : Bool) (rt : Runtime) : Runtime :=
  if rt.app.processing = b then rt
  else remount { rt with app := { rt.app with processing := b } }

/-- The auto-capture toggle of line 208: updates the state and remounts
the effect when the value changes (autoCapture is in the dependency
array). -/
def setAutoR (b : Bool) (rt : Runtime) : Runtime :=
  if rt.app.autoCapture = b then rt
  else remount { rt with app := { rt.app with autoCapture := b } }

/-- Worker initialization completing (line 53): sets the worker and
remounts the effect (worker is in the dependency array). -/
def setWorkerReadyR (rt : Runtime) : Runtime :=
  if rt.app.workerReady = true then rt
  else remount { rt with app := { rt.app with workerReady := true } }

/-- The scheduler events of the automatic path.  (The manual path is
modelled separately by `onCaptureClick`; the claims settled on this model
concern only automatic triggers.) -/
inductive REvent where
  /-- The pending animation frame of chain number `i` fires and its
  `check` body runs against the current video frame (lines 110-153). -/
  | tick (i : ℕ) (inp : TickInput)
  /-- The recognition call awaited by chain number `i` settles with the
  given outcome (lines 88-96), after which line 150's timer starts. -/
  | ocrSettles (i : ℕ) (outcome : OcrOutcome)
  /-- The 1500 ms cooldown timer of chain number `i` fires (line 150)
  and the chain reschedules itself (line 152). -/
  | cooldownEnds (i : ℕ)
  /-- The user toggles auto-capture (line 208). -/
  | toggleAuto (enabled : Bool)
  /-- Worker initialization completes (line 53). -/
  | workerInitEvt
deriving DecidableEq

/-- An event together with the wall-clock time at which it occurs. -/
structure TimedREvent where
  t : ℕ
  ev : REvent
deriving DecidableEq

/-- An observable action together with the time it happened. -/
structure TimedAction where
  t : ℕ
  act : Action
deriving DecidableEq

/-- One scheduler step.  Returns `none` when the event is not admissible
(no such chain, wrong phase, clock running backwards, or a timer firing
before its 1500 ms delay has elapsed); otherwise the next runtime and the
observable actions, faithful to lines 107-157:

  * `tick`: the chain must have a pending frame; a not-ready feed or zero
    dimensions just reschedule (lines 111-118); the line-144 guard uses
    the CHAIN CLOSURE's `processing`; on trigger, `capturePhoto` stores
    the frame, then `runOcr` checks the CLOSURE's worker (line 84): if
    absent it alerts and the chain proceeds to the cooldown; if present
    it sets `processing` (remounting the effect if that is a change),
    clears the text and dispatches the recognition.
  * `ocrSettles`: stores the text or alerts (lines 88-93), then the
    `finally` of line 95 resets `processing` (remounting on change), and
    the chain enters the line-150 cooldown.
  * `cooldownEnds`: admissible no earlier than 1500 ms after the cooldown
    began; the chain reschedules (line 152) whether or not its owning
    effect is still mounted.
-/
def rstep (rt0 : Runtime) (e : TimedREvent) : Option (Runtime × List TimedAction) :=
  if e.t < rt0.now then none else
  let rt : Runtime := { rt0 with now := e.t }
  match e.ev with
  | REvent.toggleAuto b => some (setAutoR b rt, [])
  | REvent.workerInitEvt => some (setWorkerReadyR rt, [])
  | REvent.cooldownEnds i =>
      match rt.chains.get? i with
      | none => none
      | some c =>
          if c.st = ChainState.awaitingCooldown ∧ c.since + 1500 ≤ e.t then
            let c1 : Chain := { c with st := ChainState.scheduled, since := e.t }
            some ({ rt with chains := rt.chains.set i c1 }, [])
          else none
  | REvent.ocrSettles i outcome =>
      match rt.chains.get? i with
      | none => none
      | some c =>
          match c.st with
          | ChainState.awaitingOcr _ =>
              let c1 : Chain := { c with st := ChainState.awaitingCooldown, since := e.t }
              let rt1 : Runtime := { rt with chains := rt.chains.set i c1 }
              let rt2 : Runtime :=
                match outcome with
                | OcrOutcome.ok res =>
                    { rt1 with app := { rt1.app with ocrText := res.text } }
                | OcrOutcome.err =>
                    let app1 := { rt1.app with
                                  notices := Notice.recognitionError :: rt1.app.notices }
                    { rt1 with app := app1 }
              some (setProcessingR false rt2, [])
          | _ => none
  | REvent.tick i inp =>
      match rt.chains.get? i with
      | none => none
      | some c =>
          if c.st = ChainState.scheduled then
            if (inp.ready && (inp.frame.width != 0) && (inp.frame.height != 0)) = true then
              if triggerDecision (varianceLuma inp.frame.roi) c.closure.processing = true then
                if c.closure.workerReady = true then
                  let app1 := { rt.app with
                                lastCaptureDataUrl := some inp.frame.dataUrl, ocrText := "" }
                  let c1 : Chain := { c with
                                      st := ChainState.awaitingOcr inp.frame.dataUrl,
                                      since := e.t }
                  let rt1 : Runtime := { rt with app := app1, chains := rt.chains.set i c1 }
                  some (setProcessingR true rt1,
                    [{ t := e.t, act := Action.captured inp.frame.dataUrl },
                     { t := e.t, act := Action.recognizeCalled inp.frame.dataUrl }])
                else
                  let app1 := { rt.app with
                                lastCaptureDataUrl := some inp.frame.dataUrl,
                                notices := Notice.engineNotReady :: rt.app.notices }
                  let c1 : Chain := { c with st := ChainState.awaitingCooldown, since := e.t }
                  some ({ rt with app := app1, chains := rt.chains.set i c1 },
                    [{ t := e.t, act := Action.captured inp.frame.dataUrl }])
              else
                some ({ rt with chains := rt.chains.set i { c with since := e.t } }, [])
            else
              some ({ rt with chains := rt.chains.set i { c with since := e.t } }, [])
          else none

/-- Run a timed event schedule, collecting the observable actions. -/
def rrun (rt : Runtime) : List TimedREvent → Option (Runtime × List TimedAction)
  | [] => some (rt, [])
  | e :: es =>
      match rstep rt e with
      | none => none
      | some (rt1, as) =>
          match rrun rt1 es with
          | none => none
          | some (rt2, as2) => some (rt2, as ++ as2)

/-! Concrete fixtures used by the witness and counterexample theorems. -/

/-- A mid-gray pixel (uniform-region fixture). -/
def uniformGray : Pixel := { r := 200, g := 200, b := 200 }

/-- A black pixel. -/
def blackPixel : Pixel := { r := 0, g := 0, b := 0 }

/-- A white pixel. -/
def whitePixel : Pixel := { r := 255, g := 255, b := 255 }

/-- A dark gray pixel of luma 60. -/
def gray60 : Pixel := { r := 60, g := 60, b := 60 }

/-- A high-contrast frame: its region is one black and one white pixel,
variance 16256.25. -/
def contrastFrame : Frame :=
  { width := 4, height := 2, roi := [blackPixel, whitePixel], dataUrl := "doc" }

/-- Tick input reading `contrastFrame` from a ready feed. -/
def contrastTick : TickInput := { ready := true, frame := contrastFrame }

/-- A frame of middling contrast: region of one black pixel and one pixel
of luma 60, variance 900 (above the fixed 500 cutoff, below 2000). -/
def midFrame : Frame :=
  { width := 4, height := 2, roi := [blackPixel, gray60], dataUrl := "mid" }

/-- Tick input reading `midFrame` from a ready feed. -/
def midTick : TickInput := { ready := true, frame := midFrame }

/-- A frame captured before the engine is ready. -/
def notReadyFrame : Frame :=
  { width := 2, height := 1, roi := [blackPixel], dataUrl := "early" }

/-- State with the engine initialized, otherwise initial. -/
def readyState : AppState := { initialState with workerReady := true }

/-- The slider pushed to its maximum value 2000, from a state with
auto-capture enabled and engine ready. -/
def sliderMaxState : AppState :=
  onThresholdSlider 2000 { initialState with autoCapture := true, workerReady := true }

/-- An engine whose recognition call always fails. -/
def errEngine : Engine := fun _ => OcrOutcome.err

/-- An engine always returning HELLO with confidence 0.9. -/
def helloEngine : Engine := fun _ => OcrOutcome.ok { text := "HELLO", confidence := 9/10 }

/-- An engine always returning HELLO with confidence 0.1. -/
def helloLow : Engine := fun _ => OcrOutcome.ok { text := "HELLO", confidence := 1/10 }

/-- A tick input from a not-yet-ready feed. -/
def tickW : TickInput :=
  { ready := false, frame := { width := 0, height := 0, roi := [], dataUrl := "w" } }

/-- Event-trace fixture: a manual capture followed by a failing
recognition completion. -/
def esC10 : List Event := [Event.manualClick contrastFrame, Event.ocrDone OcrOutcome.err]

/-- The runtime at the moment the user enables auto-capture, from an
idle, ready-engine state: the enabling toggle remounts the effect, which
mounts one live chain whose closure captured `processing = false` and a
present worker. -/
def rt0auto : Runtime :=
  setAutoR true
    { now := 0
      app := { initialState with workerReady := true }
      gen := 0
      chains := [] }

/-- Schedule refuting the cooldown: the live chain's tick triggers at
t = 0 over the high-contrast scene (the remount at `setProcessing(true)`
mounts a fresh chain while the triggered invocation awaits its
recognition); the fresh chain's tick at t = 16 is inert (its closure has
`processing = true`); the recognition settles at t = 100, completing the
cycle (`setProcessing(false)` remounts again, mounting another fresh
chain with `processing = false` in its closure); that chain's first tick
fires one animation frame later, at t = 116. -/
def traceCooldown : List TimedREvent :=
  [{ t := 0, ev := REvent.tick 0 contrastTick },
   { t := 16, ev := REvent.tick 1 contrastTick },
   { t := 100, ev := REvent.ocrSettles 0 (OcrOutcome.ok { text := "HELLO", confidence := 9/10 }) },
   { t := 116, ev := REvent.tick 1 contrastTick }]

/-- Schedule refuting the single-flight invariant: after `traceCooldown`
(whose tick at t = 116 starts a second recognition), the original
chain — orphaned since the first remount, with the stale
`processing = false` in its closure — finishes its 1500 ms cooldown at
t = 1600 and reschedules itself (line 152); its tick at t = 1616 then
runs while the second recognition is still in flight. -/
def traceSingleFlight : List TimedREvent :=
  traceCooldown ++
    [{ t := 1600, ev := REvent.cooldownEnds 0 },
     { t := 1616, ev := REvent.tick 0 contrastTick }]

/-- Schedule refuting cancellation: one automatic cycle runs (trigger at
t = 0, recognition settles at t = 100), the user disables auto-capture at
t = 110 while the original chain sits in its cooldown — the cleanup of
line 155 cancels only the freshly mounted chain's pending frame — then
the surviving orphan chain's cooldown ends at t = 1600 and its tick at
t = 1616 is evaluated with auto-capture off. -/
def traceCancellation : List TimedREvent :=
  [{ t := 0, ev := REvent.tick 0 contrastTick },
   { t := 100, ev := REvent.ocrSettles 0 (OcrOutcome.ok { text := "HELLO", confidence := 9/10 }) },
   { t := 110, ev := REvent.toggleAuto false },
   { t := 1600, ev := REvent.cooldownEnds 0 },
   { t := 1616, ev := REvent.tick 0 contrastTick }]

/-! Helper lemmas. -/

/-- The one-pass fold of `lumaSums` from an arbitrary accumulator. -/
lemma lumaSums_go (ps : List Pixel) (a b : ℚ) :
    ps.foldl (fun acc p => (acc.1 + luma p, acc.2 + luma p * luma p)) (a, b) =
      (a + (ps.map luma).sum, b + (ps.map (fun p => luma p * luma p)).sum) := by
  induction ps generalizing a b with
  | nil => simp
  | cons p t ih => simp [ih, add_assoc]

/-- The one-pass accumulation computes the sum of lumas and the sum of
their squares. -/
lemma lumaSums_eq (ps : List Pixel) :
    lumaSums ps = ((ps.map luma).sum, (ps.map (fun p => luma p * luma p)).sum) := by
  simpa [lumaSums] using lumaSums_go ps 0 0

/-- The combined tick guard is true exactly when the feed is ready, the
dimensions are nonzero, the variance beats the fixed threshold, and no
recognition is running (and auto-capture is on). -/
lemma tick_guard_iff (s : AppState) (inp : TickInput) :
    (s.autoCapture && checkGuard inp s.processing) = true ↔
      (s.autoCapture = true ∧ inp.ready = true ∧ inp.frame.width ≠ 0 ∧
       inp.frame.height ≠ 0 ∧ varianceThreshold < varianceLuma inp.frame.roi ∧
       s.processing = false) := by
  simp [checkGuard, triggerDecision, shouldTrigger, Bool.and_assoc, and_assoc,
    Bool.not_eq_true']

/-- Every step preserves the invariant that the stored text is empty
while a recognition is in flight. -/
lemma step_text_invariant (s : AppState) (e : Event)
    (h : s.processing = true → s.ocrText = "") :
    (step s e).1.processing = true → (step s e).1.ocrText = "" := by
  cases e with
  | workerInit => simpa [step] using h
  | setAuto b => simpa [step] using h
  | clearText => simp [step]
  | manualClick f =>
      by_cases hw : s.workerReady
      · simp [step, capturePhoto, runOcrStart, hw]
      · simpa [step, capturePhoto, runOcrStart, hw] using h
  | ocrDone o =>
      by_cases hp : s.processing
      · cases o <;> simp [step, runOcrFinish, hp]
      · simp only [step]
        rw [if_neg hp]
        exact h
  | tick inp =>
      by_cases hg : (s.autoCapture && checkGuard inp s.processing) = true
      · by_cases hw : s.workerReady
        · simp [step, hg, capturePhoto, runOcrStart, hw]
        · simpa [step, hg, capturePhoto, runOcrStart, hw] using h
      · rw [Bool.not_eq_true] at hg
        simpa [step, hg] using h

/-- The line-144 decision is false whenever the evaluating closure's
processing flag is true, whatever the variance. -/
lemma trigger_while_processing (v : ℚ) : triggerDecision v true = false := by
  simp [triggerDecision, shouldTrigger]

/-- The high-contrast region (one black and one white pixel) passes the
line-144 decision for a closure with processing = false: its variance is
16256.25, above the fixed threshold 500. -/
lemma trigger_high_contrast :
    triggerDecision (varianceLuma [blackPixel, whitePixel]) false = true := by
  have hv : varianceLuma [blackPixel, whitePixel] = 65025 / 4 := by
    norm_num [varianceLuma, lumaSums, luma, blackPixel, whitePixel]
  simp only [triggerDecision, shouldTrigger, hv, Bool.not_false, Bool.and_true,
    decide_eq_true_iff, varianceThreshold]
  norm_num

/-! The claims. -/

/-- C7: the sampler computes the population variance of the lumas in one
pass as mean of squares minus square of mean, and for every nonempty
region of uniform color the computed variance is 0, regardless of mean
brightness. -/
theorem variance_correctness (ps : List Pixel) (p : Pixel) :
    varianceLuma ps =
      (ps.map (fun q => luma q * luma q)).sum / (ps.length : ℚ) -
        ((ps.map luma).sum / (ps.length : ℚ)) * ((ps.map luma).sum / (ps.length : ℚ)) ∧
    (ps ≠ [] → (∀ q ∈ ps, q = p) → varianceLuma ps = 0) := by
  constructor
  · simp [varianceLuma, lumaSums_eq]
  · intro hne hu
    have hrep : ps = List.replicate ps.length p :=
      List.eq_replicate_iff.mpr ⟨rfl, hu⟩
    have hlen : ps.length ≠ 0 := by
      simpa [List.length_eq_zero] using hne
    have hq : ((ps.length : ℚ)) ≠ 0 := Nat.cast_ne_zero.mpr hlen
    rw [varianceLuma, lumaSums_eq]
    conv_lhs => rw [hrep]
    simp only [List.map_replicate, List.sum_replicate, nsmul_eq_mul]
    field_simp

/-- C7 witness: a uniform two-pixel region of gray value 200 has variance
exactly 0. -/
theorem variance_correctness_witness :
    ([uniformGray, uniformGray] : List Pixel) ≠ [] ∧
    (∀ q ∈ ([uniformGray, uniformGray] : List Pixel), q = uniformGray) ∧
    varianceLuma [uniformGray, uniformGray] = 0 :=
  ⟨by simp, by simp,
    (variance_correctness [uniformGray, uniformGray] uniformGray).2 (by simp) (by simp)⟩

/-- C9: the trigger decision is antitone in the threshold: for a fixed
variance and processing flag, if a frame does not trigger at threshold t1
and t1 ≤ t2, it does not trigger at t2. -/
theorem threshold_monotone (v t1 t2 : ℚ) (p : Bool) (h12 : t1 ≤ t2)
    (h1 : shouldTrigger v t1 p = false) : shouldTrigger v t2 p = false := by
  cases p with
  | true => simp [shouldTrigger]
  | false =>
      simp only [shouldTrigger, Bool.not_false, Bool.and_true,
        decide_eq_false_iff_not, not_lt] at h1 ⊢
      exact le_trans h1 h12

/-- C9 witness: variance 50 does not trigger at threshold 100, hence not
at threshold 600 either. -/
theorem threshold_monotone_witness :
    (100 : ℚ) ≤ 600 ∧ shouldTrigger 50 100 false = false ∧
    shouldTrigger 50 600 false = false :=
  ⟨by norm_num, by decide, threshold_monotone 50 100 600 false (by norm_num) (by decide)⟩

/-- C1: the code violates the single-flight invariant.  Evaluating the
source's scheduling on `traceSingleFlight` from a freshly enabled
auto-capture: after the tick at t = 116 starts a second recognition and
the orphaned original chain's cooldown ends at t = 1600, a recognition is
in flight (`processing = true`); yet the orphan's tick at t = 1616 — whose
closure still holds the stale `processing = false` of the render that
mounted it — passes the line-144 guard and issues a new capture and a new
`recognize` call, which the claim forbids until the state returns to
idle. -/
theorem single_flight_violated :
    (rrun rt0auto (traceCooldown ++ [{ t := 1600, ev := REvent.cooldownEnds 0 }])).map
        (fun p => p.1.app.processing) = some true ∧
    (rrun rt0auto traceSingleFlight).map (fun p => p.2) =
      some [{ t := 0, act := Action.captured "doc" },
            { t := 0, act := Action.recognizeCalled "doc" },
            { t := 116, act := Action.captured "doc" },
            { t := 116, act := Action.recognizeCalled "doc" },
            { t := 1616, act := Action.captured "doc" },
            { t := 1616, act := Action.recognizeCalled "doc" }] := by
  constructor
  · simp [rrun, rstep, rt0auto, traceCooldown, setProcessingR, setAutoR, remount,
      initialState, contrastTick, contrastFrame, trigger_high_contrast,
      trigger_while_processing, List.get?, List.set, List.filter]
  · simp [rrun, rstep, rt0auto, traceSingleFlight, traceCooldown, setProcessingR,
      setAutoR, remount, initialState, contrastTick, contrastFrame,
      trigger_high_contrast, trigger_while_processing, List.get?, List.set,
      List.filter]

/-- C2: the code does not enforce the cooldown.  Evaluating the source's
scheduling on `traceCooldown` from a freshly enabled auto-capture: the
first automatic cycle completes at t = 100 (`processing` back to false);
the `setProcessing(false)` of that completion remounts the effect, and
the freshly mounted chain's first tick fires one animation frame later
and captures again at t = 116 — only 16 ms after the cycle completed,
well inside the claimed 1500 ms window (line 150's timer delays only the
orphaned original chain). -/
theorem cooldown_violated :
    (rrun rt0auto (traceCooldown.take 3)).map (fun p => p.1.app.processing) =
      some false ∧
    (rrun rt0auto traceCooldown).map (fun p => p.2) =
      some [{ t := 0, act := Action.captured "doc" },
            { t := 0, act := Action.recognizeCalled "doc" },
            { t := 116, act := Action.captured "doc" },
            { t := 116, act := Action.recognizeCalled "doc" }] ∧
    116 < 100 + 1500 := by
  refine ⟨?_, ?_, by norm_num⟩
  · simp [rrun, rstep, rt0auto, traceCooldown, setProcessingR, setAutoR, remount,
      initialState, contrastTick, contrastFrame, trigger_high_contrast,
      trigger_while_processing, List.get?, List.set, List.filter, List.take]
  · simp [rrun, rstep, rt0auto, traceCooldown, setProcessingR, setAutoR, remount,
      initialState, contrastTick, contrastFrame, trigger_high_contrast,
      trigger_while_processing, List.get?, List.set, List.filter]

/-- C6: the code keeps sampling after auto-capture is disabled.
Evaluating the source's scheduling on `traceCancellation`: auto-capture
is off from t = 110 on (third event, and the cleanup of line 155 cancels
the only pending frame), yet the original chain — suspended in its
cooldown when the toggle happened — survives, reschedules itself at
t = 1600 (line 152 runs unconditionally and `check` never reads
`autoCapture`), and its tick at t = 1616 is evaluated and issues a
capture and a recognition call, which the claim forbids. -/
theorem cancellation_violated :
    (rrun rt0auto (traceCancellation.take 3)).map (fun p => p.1.app.autoCapture) =
      some false ∧
    (rrun rt0auto traceCancellation).map (fun p => p.2) =
      some [{ t := 0, act := Action.captured "doc" },
            { t := 0, act := Action.recognizeCalled "doc" },
            { t := 1616, act := Action.captured "doc" },
            { t := 1616, act := Action.recognizeCalled "doc" }] := by
  constructor
  · simp [rrun, rstep, rt0auto, traceCancellation, setProcessingR, setAutoR, remount,
      initialState, contrastTick, contrastFrame, trigger_high_contrast,
      trigger_while_processing, List.get?, List.set, List.filter, List.take]
  · simp [rrun, rstep, rt0auto, traceCancellation, setProcessingR, setAutoR, remount,
      initialState, contrastTick, contrastFrame, trigger_high_contrast,
      trigger_while_processing, List.get?, List.set, List.filter]

/-- C3 counterexample: with the threshold slider at its maximum, 2000
(internal value 2 after the division by 1000 of line 217), a tick whose
region has variance 900 still issues an automatic capture, although
900 < 2000: the trigger compares against the fixed constant 500 of line
143, not against any value derived from the slider. -/
theorem threshold_slider_cex :
    sliderMaxState.autoConfidenceThreshold = 2 ∧
    varianceLuma midFrame.roi = 900 ∧
    varianceLuma midFrame.roi < 2000 ∧
    Action.captured "mid" ∈ (step sliderMaxState (Event.tick midTick)).2 := by
  have hvar : varianceLuma midFrame.roi = 900 := by
    norm_num [varianceLuma, lumaSums, luma, midFrame, blackPixel, gray60]
  have hg : (sliderMaxState.autoCapture && checkGuard midTick sliderMaxState.processing) = true := by
    apply (tick_guard_iff sliderMaxState midTick).mpr
    refine ⟨rfl, rfl, by norm_num [midTick, midFrame], by norm_num [midTick, midFrame], ?_, rfl⟩
    show varianceThreshold < varianceLuma midFrame.roi
    rw [hvar, varianceThreshold]
    norm_num
  refine ⟨by norm_num [sliderMaxState, onThresholdSlider, initialState], hvar,
    by rw [hvar]; norm_num, ?_⟩
  simp only [step]
  rw [if_pos hg]
  simp [capturePhoto, runOcrStart, sliderMaxState, onThresholdSlider, initialState,
    midTick, midFrame]

/-- C3 (amended): the slider mutates the state value
autoConfidenceThreshold to its value divided by 1000, but the
automatic-trigger decision is independent of that value: for every frame
the auto-trigger fires iff the measured variance exceeds the fixed
constant varianceThreshold = 500 (and no recognition is running, the
feed is ready, auto-capture is on). -/
theorem threshold_slider (s : AppState) (v q : ℚ) (inp : TickInput) :
    onThresholdSlider v s = { s with autoConfidenceThreshold := v / 1000 } ∧
    (step { s with autoConfidenceThreshold := q } (Event.tick inp)).2 =
      (step s (Event.tick inp)).2 ∧
    ((step s (Event.tick inp)).2 ≠ [] ↔
      (s.autoCapture = true ∧ inp.ready = true ∧ inp.frame.width ≠ 0 ∧
       inp.frame.height ≠ 0 ∧ varianceThreshold < varianceLuma inp.frame.roi ∧
       s.processing = false)) := by
  refine ⟨rfl, ?_, ?_⟩
  · by_cases hg : (s.autoCapture && checkGuard inp s.processing) = true
    · have hg2 : (({ s with autoConfidenceThreshold := q } : AppState).autoCapture &&
          checkGuard inp ({ s with autoConfidenceThreshold := q } : AppState).processing) = true := hg
      by_cases hw : s.workerReady = true <;>
        simp [step, hg, hg2, capturePhoto, runOcrStart, hw]
    · rw [Bool.not_eq_true] at hg
      have hg2 : (({ s with autoConfidenceThreshold := q } : AppState).autoCapture &&
          checkGuard inp ({ s with autoConfidenceThreshold := q } : AppState).processing) = false := hg
      simp [step, hg, hg2]
  · by_cases hg : (s.autoCapture && checkGuard inp s.processing) = true
    · simp only [step, hg, if_true]
      constructor
      · intro _
        exact (tick_guard_iff s inp).mp hg
      · intro _
        simp [capturePhoto, runOcrStart]
    · rw [Bool.not_eq_true] at hg
      constructor
      · intro hne
        exact absurd (by simp [step, hg]) hne
      · intro hc
        exact absurd ((tick_guard_iff s inp).mpr hc) (by simp [hg])

/-- C3 amended-claim witness: instantiation at the initial state with the
slider at 2000 and a probe value 0.1. -/
theorem threshold_slider_witness :
    onThresholdSlider 2000 initialState =
      { initialState with autoConfidenceThreshold := 2000 / 1000 } ∧
    (step { initialState with autoConfidenceThreshold := (0.1 : ℚ) }
        (Event.tick midTick)).2 = (step initialState (Event.tick midTick)).2 ∧
    ((step initialState (Event.tick midTick)).2 ≠ [] ↔
      (initialState.autoCapture = true ∧ midTick.ready = true ∧
       midTick.frame.width ≠ 0 ∧ midTick.frame.height ≠ 0 ∧
       varianceThreshold < varianceLuma midTick.frame.roi ∧
       initialState.processing = false)) :=
  threshold_slider initialState 2000 0.1 midTick

/-- C4 counterexample: in the initial state the engine is not ready and no
capture has been stored, yet a manual capture request does store a new
captured image: the capture is performed before the engine-readiness
check, so the current-capture state is not left unchanged. -/
theorem capture_before_ready_cex :
    initialState.workerReady = false ∧
    initialState.lastCaptureDataUrl = none ∧
    (onCaptureClick errEngine notReadyFrame initialState).1.lastCaptureDataUrl =
      some "early" :=
  ⟨rfl, rfl, rfl⟩

/-- C4 (amended): a capture request made before the engine is ready, be it
manual or automatic, surfaces a user-visible notice, is dropped (no
recognition call is made, processing and text are unchanged), but the
photo is still taken: the last captured image is replaced by the new
frame. -/
theorem capture_before_ready (engine : Engine) (f : Frame) (s : AppState)
    (inp : TickInput) (hw : s.workerReady = false) :
    onCaptureClick engine f s =
      ({ s with lastCaptureDataUrl := some f.dataUrl,
                notices := Notice.engineNotReady :: s.notices },
       [Action.captured f.dataUrl]) ∧
    ((s.autoCapture && checkGuard inp s.processing) = true →
      step s (Event.tick inp) =
        ({ s with lastCaptureDataUrl := some inp.frame.dataUrl,
                  notices := Notice.engineNotReady :: s.notices },
         [Action.captured inp.frame.dataUrl])) := by
  constructor
  · simp [onCaptureClick, capturePhoto, runOcr, runOcrStart, hw]
  · intro hg
    simp only [step]
    rw [if_pos hg]
    simp [capturePhoto, runOcrStart, hw]

/-- C4 amended-claim witness: concrete manual and automatic requests
against the not-yet-ready engine. -/
theorem capture_before_ready_witness :
    initialState.workerReady = false ∧
    onCaptureClick errEngine notReadyFrame initialState =
      ({ initialState with lastCaptureDataUrl := some notReadyFrame.dataUrl,
                           notices := Notice.engineNotReady :: initialState.notices },
       [Action.captured notReadyFrame.dataUrl]) := by
  have h := capture_before_ready errEngine notReadyFrame initialState tickW rfl
  exact ⟨rfl, h.1⟩

/-- C5: when the recognition call fails from a ready-engine state, the
coordinator ends idle (processing = false, never stuck in recognizing),
the text result is cleared, a user-visible notice is surfaced, exactly
one recognition call was made (no automatic retry), and a subsequent
capture request against a healthy engine succeeds normally. -/
theorem recognition_failure_recovery (engine engine2 : Engine) (d : String)
    (s : AppState) (f : Frame) (res : OcrResult)
    (hw : s.workerReady = true) (hfail : engine d = OcrOutcome.err)
    (hok : engine2 f.dataUrl = OcrOutcome.ok res) :
    (runOcr engine d s).1.processing = false ∧
    (runOcr engine d s).1.ocrText = "" ∧
    Notice.recognitionError ∈ (runOcr engine d s).1.notices ∧
    (runOcr engine d s).2 = [Action.recognizeCalled d] ∧
    (onCaptureClick engine2 f (runOcr engine d s).1).1.ocrText = res.text ∧
    (onCaptureClick engine2 f (runOcr engine d s).1).1.processing = false := by
  simp [runOcr, runOcrStart, runOcrFinish, onCaptureClick, capturePhoto, hw, hfail, hok]

/-- C5 witness: a failing recognition from the ready initial state,
followed by a successful manual capture with the HELLO engine. -/
theorem recognition_failure_recovery_witness :
    readyState.workerReady = true ∧
    (runOcr errEngine "doc" readyState).1.processing = false ∧
    (runOcr errEngine "doc" readyState).1.ocrText = "" ∧
    Notice.recognitionError ∈ (runOcr errEngine "doc" readyState).1.notices ∧
    (runOcr errEngine "doc" readyState).2 = [Action.recognizeCalled "doc"] ∧
    (onCaptureClick helloEngine contrastFrame (runOcr errEngine "doc" readyState).1).1.ocrText =
      "HELLO" ∧
    (onCaptureClick helloEngine contrastFrame
        (runOcr errEngine "doc" readyState).1).1.processing = false := by
  have h := recognition_failure_recovery errEngine helloEngine "doc" readyState
    contrastFrame { text := "HELLO", confidence := 9/10 } rfl rfl rfl
  exact ⟨rfl, h.1, h.2.1, h.2.2.1, h.2.2.2.1, h.2.2.2.2.1, h.2.2.2.2.2⟩

/-- C8 counterexample: two engines returning the same text HELLO with
different confidences (0.9 and 0.1) produce identical final states and
actions for the same manual capture: the confidence is not stored in the
result state (it is only logged), so no state component records it. -/
theorem recognition_success_cex :
    onCaptureClick helloEngine contrastFrame readyState =
      onCaptureClick helloLow contrastFrame readyState ∧
    ¬ ∃ conf : AppState → ℚ,
        conf (onCaptureClick helloEngine contrastFrame readyState).1 = 9/10 ∧
        conf (onCaptureClick helloLow contrastFrame readyState).1 = 1/10 := by
  refine ⟨rfl, ?_⟩
  rintro ⟨conf, hc1, hc2⟩
  have hstate : (onCaptureClick helloEngine contrastFrame readyState).1 =
      (onCaptureClick helloLow contrastFrame readyState).1 := rfl
  rw [hstate] at hc1
  rw [hc1] at hc2
  norm_num at hc2

/-- C8 (amended): when the engine is ready and recognition succeeds, the
coordinator stores the recognized text and returns to idle with the
captured image stored; the confidence is received but not stored: the
final state and actions are the same for any engine returning the same
text with any confidence. In particular an engine returning HELLO ends
with text exactly HELLO and state idle. -/
theorem recognition_success (engine : Engine) (f : Frame) (s : AppState)
    (res : OcrResult) (hw : s.workerReady = true)
    (hok : engine f.dataUrl = OcrOutcome.ok res) :
    (onCaptureClick engine f s).1.ocrText = res.text ∧
    (onCaptureClick engine f s).1.processing = false ∧
    (onCaptureClick engine f s).1.lastCaptureDataUrl = some f.dataUrl ∧
    (∀ (engine2 : Engine) (c : ℚ),
      engine2 f.dataUrl = OcrOutcome.ok { text := res.text, confidence := c } →
      onCaptureClick engine2 f s = onCaptureClick engine f s) := by
  refine ⟨?_, ?_, ?_, ?_⟩
  · simp [onCaptureClick, capturePhoto, runOcr, runOcrStart, runOcrFinish, hw, hok]
  · simp [onCaptureClick, capturePhoto, runOcr, runOcrStart, runOcrFinish, hw, hok]
  · simp [onCaptureClick, capturePhoto, runOcr, runOcrStart, runOcrFinish, hw, hok]
  · intro engine2 c h2
    simp [onCaptureClick, capturePhoto, runOcr, runOcrStart, runOcrFinish, hw, hok, h2]

/-- C8 amended-claim witness: the HELLO engine with confidence 0.9 ends
with text exactly HELLO and state idle. -/
theorem recognition_success_witness :
    readyState.workerReady = true ∧
    (onCaptureClick helloEngine contrastFrame readyState).1.ocrText = "HELLO" ∧
    (onCaptureClick helloEngine contrastFrame readyState).1.processing = false ∧
    (onCaptureClick helloEngine contrastFrame readyState).1.lastCaptureDataUrl =
      some "doc" := by
  have h := recognition_success helloEngine contrastFrame readyState
    { text := "HELLO", confidence := 9/10 } rfl rfl
  exact ⟨rfl, h.1, h.2.1, h.2.2.1⟩

/-- C10: a recognition run with a ready engine clears the stored text to
the empty string before the recognition call is awaited; and the
emptiness of the text while a recognition is in flight is an invariant of
every event trace, so text from a previous capture never survives into a
new capture cycle, on the success or the failure path. -/
theorem text_cleared_invariant (s : AppState) (es : List Event)
    (h : s.processing = true → s.ocrText = "") :
    ((runEvents s es).processing = true → (runEvents s es).ocrText = "") ∧
    (∀ d, s.workerReady = true →
      (runOcrStart d s).1.ocrText = "" ∧ (runOcrStart d s).1.processing = true) := by
  constructor
  · induction es generalizing s with
    | nil => simpa [runEvents] using h
    | cons e es ih =>
        rw [runEvents]
        exact ih (step s e).1 (step_text_invariant s e h)
  · intro d hw
    simp [runOcrStart, hw]

/-- C10 witness: from the ready initial state, after a manual capture and
a failing recognition completion, the invariant holds; and starting a
recognition clears the text and raises the processing flag. -/
theorem text_cleared_invariant_witness :
    ((runEvents readyState esC10).processing = true →
      (runEvents readyState esC10).ocrText = "") ∧
    ((runOcrStart "doc" readyState).1.ocrText = "" ∧
     (runOcrStart "doc" readyState).1.processing = true) := by
  have h := text_cleared_invariant readyState esC10 (fun _ => rfl)
  exact ⟨h.1, h.2 "doc" rfl⟩

end OcrProto
